import Mathlib

/-!
Verification development for the GamePriceAPI script (src/api.py).

The script is Python 2 code. The shallow embedding below translates the
relevant parts into Lean:
  * Python floats are modelled as rationals.
  * Python strings are modelled as lists of characters, with the string
    operations the source uses (startswith, split, int(), float()) defined
    by structural recursion so that every theorem evaluates in the kernel.
  * Python dicts with year keys become insertion-ordered association lists.
  * Raised exceptions become explicit error results; the busy-wait loop in
    CPIData.load_from_file, whose body is a bare pass statement, is modelled
    as an explicit non-termination outcome.
  * Python 2 mixed-type comparison orders None below every int, so
    an int compared with a None bound satisfies x < None = False and
    x > None = True; the clamping code below follows that rule.
-/

set_option autoImplicit false

deriving instance DecidableEq for Except

/-- A Python string, as the list of its characters. -/
abbrev PyStr := List Char

/-- Exceptions that the translated code can raise.  KeyError and IndexError
are subclasses of LookupError in Python; the bare lookupError constructor
stands for a LookupError raised directly (no code path below produces it, it
exists only to state claims about error classes).  keyError carries the key
looked up in the year dict (none models the Python value None used as a key);
keyErrorStr carries a missing string key of a platform record. -/
inductive PyErr where
  | keyError (k : Option Int)
  | keyErrorStr (k : String)
  | indexError
  | valueError
  | zeroDivisionError
  | lookupError
  deriving Repr, DecidableEq

/-- Python str.startswith(pre): pre is a prefix of the string. -/
def pyStartsWith : PyStr → PyStr → Bool
  | [], _ => true
  | _ :: _, [] => false
  | p :: ps, c :: cs => p = c && pyStartsWith ps cs

/-- Helper for pySplit: builds tokens, carrying the current token reversed. -/
def pySplitAux : List Char → List Char → List PyStr
  | acc, [] => if acc.isEmpty then [] else [acc.reverse]
  | acc, c :: cs =>
      if c.isWhitespace then
        if acc.isEmpty then pySplitAux [] cs
        else acc.reverse :: pySplitAux [] cs
      else pySplitAux (c :: acc) cs

/-- Python str.split() with no argument: split on runs of whitespace,
dropping empty tokens.  line.rstrip() before it only removes trailing
whitespace, which split() ignores anyway, so rstrip().split() and split()
agree and the former is embedded as the latter. -/
def pySplit (s : PyStr) : List PyStr :=
  pySplitAux [] s

/-- Python str.split(sep) for a one-character separator: split at every
occurrence of sep, keeping empty pieces; never returns an empty list. -/
def pySplitOn (sep : Char) : PyStr → List PyStr
  | [] => [[]]
  | c :: cs =>
      if c = sep then [] :: pySplitOn sep cs
      else
        match pySplitOn sep cs with
        | t :: ts => (c :: t) :: ts
        | [] => [[c]]

/-- Numeric value of a decimal digit character (code points 48 to 57). -/
def digitVal (c : Char) : Option Nat :=
  if c.isDigit then some (c.toNat - 48) else none

/-- Parse a nonempty run of decimal digits; none on anything else. -/
def pyParseNat : PyStr → Option Nat
  | [] => none
  | cs =>
      cs.foldl
        (fun acc c =>
          match acc, digitVal c with
          | some n, some d => some (10 * n + d)
          | _, _ => none)
        (some 0)

/-- Python int() on a token produced by split(): an optional sign followed
by decimal digits; anything else raises ValueError (none here). -/
def pyParseInt (s : PyStr) : Option Int :=
  match s with
  | '-' :: rest => (pyParseNat rest).map (fun n => -(n : Int))
  | '+' :: rest => (pyParseNat rest).map (fun n => (n : Int))
  | _ => (pyParseNat s).map (fun n => (n : Int))

/-- Python float() on simple decimal literals such as 90.0, -1.5, .5 or 7
(the forms occurring in the CPI data file); exponents and the inf/nan
spellings are not modelled.  none models ValueError. -/
def pyParseFloat (s : PyStr) : Option ℚ :=
  let signBody : ℚ × PyStr :=
    match s with
    | '-' :: rest => (-1, rest)
    | '+' :: rest => (1, rest)
    | _ => (1, s)
  let sign := signBody.1
  match pySplitOn '.' signBody.2 with
  | [ip] =>
      (pyParseNat ip).map (fun n => sign * (n : ℚ))
  | [ip, fp] =>
      if ip.isEmpty && fp.isEmpty then none
      else
        match (if ip.isEmpty then some 0 else pyParseNat ip),
              (if fp.isEmpty then some 0 else pyParseNat fp) with
        | some i, some f =>
            some (sign * ((i : ℚ) + (f : ℚ) / ((10 : ℚ) ^ fp.length)))
        | _, _ => none
  | _ => none

/-- State of a CPIData object (src/api.py lines 12-24): the year-to-CPI dict
(insertion ordered), and the series bounds, None before any load. -/
structure CPIData where
  year_cpi : List (Int × ℚ)
  first_year : Option Int
  last_year : Option Int
  deriving Repr, DecidableEq

/-- CPIData.__init__ (src/api.py lines 19-24): empty dict, bounds None. -/
def initCPI : CPIData := { year_cpi := [], first_year := none, last_year := none }

/-- Lookup in the year_cpi dict, self.year_cpi[y]; none models KeyError. -/
def lookupYearCpi (s : CPIData) (y : Int) : Option ℚ :=
  s.year_cpi.lookup y

/-- Python dict assignment d[k] = v: replace the value if the key is
present, otherwise append the pair (dicts preserve insertion order). -/
def dictSet (d : List (Int × ℚ)) (k : Int) (v : ℚ) : List (Int × ℚ) :=
  if (d.lookup k).isSome then
    d.map (fun kv => if kv.1 = k then (k, v) else kv)
  else d ++ [(k, v)]

/-- Arithmetic mean, sum(year_cpi) / len(year_cpi); callers guard the empty
case exactly where Python would raise ZeroDivisionError. -/
def listMean (l : List ℚ) : ℚ := l.sum / (l.length : ℚ)

/-- Outcome of running CPIData.load_from_file: normal return with the final
object state, an exception raised with the object state at that moment, or
non-termination (the busy-wait loop) with the object state at that moment. -/
inductive LoadResult where
  | ok (s : CPIData)
  | err (e : PyErr) (s : CPIData)
  | diverge (s : CPIData)
  deriving Repr, DecidableEq

/-- The header-marker prefix "DATE " tested by line 60 of src/api.py. -/
def dateMarker : PyStr := ['D', 'A', 'T', 'E', ' ']

/-- The for-loop of CPIData.load_from_file (src/api.py lines 57-84) with its
two loop locals current_year and year_cpi (here cur and acc), followed by the
final finalisation block.  Faithful to the source:
  * lines 60-61: while not line.startswith("DATE "): pass — the body never
    changes line, so when the guard holds the loop never terminates; when the
    line does start with "DATE " the loop exits at once and the line itself
    falls through to the parsing code (the header line is NOT skipped).
  * line 67: int(data[0].split("-")[0]); a line that starts with "DATE "
    always has data[0] = "DATE", so this parse raises ValueError there.
  * lines 70-72: first_year is set only once, last_year on every record.
  * lines 75-80: on a year change, store the mean of the previous year,
    reset the accumulator, then append the new value.
  * lines 83-84: store the mean of the last year unless already stored. -/
def load_lines : CPIData → Option Int → List ℚ → List PyStr → LoadResult
  | s, cur, acc, [] =>
      match cur with
      | none => LoadResult.ok s
      | some cy =>
          if (lookupYearCpi s cy).isSome then LoadResult.ok s
          else if acc.isEmpty then LoadResult.err PyErr.zeroDivisionError s
          else LoadResult.ok { s with year_cpi := dictSet s.year_cpi cy (listMean acc) }
  | s, cur, acc, line :: rest =>
      if !pyStartsWith dateMarker line then LoadResult.diverge s
      else
        match pySplit line with
        | [] => LoadResult.err PyErr.indexError s
        | d0 :: ds =>
            match pyParseInt ((pySplitOn '-' d0).headD d0) with
            | none => LoadResult.err PyErr.valueError s
            | some year =>
                match ds with
                | [] => LoadResult.err PyErr.indexError s
                | d1 :: _ =>
                    match pyParseFloat d1 with
                    | none => LoadResult.err PyErr.valueError s
                    | some cpi =>
                        let s1 : CPIData :=
                          { s with
                            first_year :=
                              match s.first_year with
                              | none => some year
                              | some f => some f
                            last_year := some year }
                        if cur = some year then
                          load_lines s1 cur (acc ++ [cpi]) rest
                        else
                          match cur with
                          | none => load_lines s1 (some year) [cpi] rest
                          | some cy =>
                              if acc.isEmpty then
                                LoadResult.err PyErr.zeroDivisionError s1
                              else
                                load_lines
                                  { s1 with
                                    year_cpi := dictSet s1.year_cpi cy (listMean acc) }
                                  (some year) [cpi] rest

/-- CPIData.load_from_file (src/api.py lines 54-84) on a list of input
lines: run the loop with current_year = None and year_cpi = []. -/
def load_from_file (s : CPIData) (lines : List PyStr) : LoadResult :=
  load_lines s none [] lines

/-- The source-year clamp of get_adjusted_price (src/api.py lines 95-98),
including the Python 2 behaviour against None bounds: year < None is False
and year > None is True, so with last_year = None the year variable becomes
None itself (modelled as the none result). -/
def clampSourceYear (s : CPIData) (year : Int) : Option Int :=
  match s.first_year with
  | some f =>
      if year < f then some f
      else
        match s.last_year with
        | some l => if year > l then some l else some year
        | none => none
  | none =>
      match s.last_year with
      | some l => if year > l then some l else some year
      | none => none

/-- The target-year defaulting and cap of get_adjusted_price
(src/api.py lines 91-92): if current_year is None or current_year > 2013,
current_year = 2013. -/
def clampCurrentYear (current_year : Option Int) : Int :=
  match current_year with
  | none => 2013
  | some c => if c > 2013 then 2013 else c

/-- CPIData.get_adjusted_price (src/api.py lines 86-103).  The target year
defaults to 2013 when absent and is capped at 2013; the source year is
clamped to the series bounds; then both years are looked up in year_cpi
(KeyError when absent, carrying the key; a None key arises on an empty
series) and price / year_cpi * current_cpi is returned, with
ZeroDivisionError when the source-year CPI is zero. -/
def get_adjusted_price (s : CPIData) (price : ℚ) (year : Int)
    (current_year : Option Int) : Except PyErr ℚ :=
  match clampSourceYear s year with
  | none => Except.error (PyErr.keyError none)
  | some ys =>
      match lookupYearCpi s ys with
      | none => Except.error (PyErr.keyError (some ys))
      | some year_cpi =>
          match lookupYearCpi s (clampCurrentYear current_year) with
          | none => Except.error (PyErr.keyError (some (clampCurrentYear current_year)))
          | some current_cpi =>
              if year_cpi = 0 then Except.error PyErr.zeroDivisionError
              else Except.ok (price / year_cpi * current_cpi)

/-- A platform record from the catalog, a dict with optional fields.
none models an absent key; a present key holding a Python-falsy value
(empty string, price 0.0, None) is modelled as some of the falsy value
(the empty list, 0), which the source treats the same way everywhere it
is observable: truthiness tests fail on it and indexing succeeds. -/
structure Platform where
  name : Option PyStr
  abbreviation : Option PyStr
  release_date : Option PyStr
  original_price : Option ℚ
  deriving Repr, DecidableEq

/-- Truthiness of an optional string field: an absent key and an empty
string are both falsy. -/
def truthyStr : Option PyStr → Bool
  | none => false
  | some s => !s.isEmpty

/-- Truthiness of an optional numeric field: an absent key and 0 are falsy. -/
def truthyRat : Option ℚ → Bool
  | none => false
  | some q => q != 0

/-- is_valid_dataset (src/api.py lines 132-151).  Each of the four blocks
tests key presence and truthiness; the release_date, original_price and
abbreviation diagnostics interpolate platform["name"], which raises
KeyError("name") when that key is absent (a present falsy name is printed
without raising); the name diagnostic itself interpolates nothing. -/
def is_valid_dataset (platform : Platform) : Except PyErr Bool :=
  if !truthyStr platform.release_date then
    match platform.name with
    | none => Except.error (PyErr.keyErrorStr ("name"))
    | some _ => Except.ok false
  else if !truthyRat platform.original_price then
    match platform.name with
    | none => Except.error (PyErr.keyErrorStr ("name"))
    | some _ => Except.ok false
  else if !truthyStr platform.name then
    Except.ok false
  else if !truthyStr platform.abbreviation then
    match platform.name with
    | none => Except.error (PyErr.keyErrorStr ("name"))
    | some _ => Except.ok false
  else Except.ok true

/-- A platform record after the processing loop of main attached its
derived year and adjusted price (src/api.py lines 325-327; the source
mutates the dict, here the extension is a new value). -/
structure EnrichedPlatform where
  platform : Platform
  year : Int
  adjusted_price : ℚ
  deriving Repr, DecidableEq

/-- The record-processing loop of main (src/api.py lines 311-332) over a
given CPIData object, an optional limit and the arriving records, carrying
the counter and the platforms output list.  Faithful to the source:
  * records failing is_valid_dataset are skipped without touching the
    counter; an exception from is_valid_dataset propagates;
  * for an accepted record, year = int(platform["release_date"].split("-")[0]),
    then cpi_data.get_adjusted_price(price, year) with no explicit target;
    exceptions from either propagate;
  * the enriched record is appended, THEN the loop breaks when
    limit is not None and counter + 1 >= limit, otherwise counter += 1. -/
def main_loop (cpi : CPIData) (limit : Option Int) :
    List Platform → Int → List EnrichedPlatform → Except PyErr (List EnrichedPlatform)
  | [], _, platforms => Except.ok platforms
  | platform :: rest, counter, platforms =>
      match is_valid_dataset platform with
      | Except.error e => Except.error e
      | Except.ok false => main_loop cpi limit rest counter platforms
      | Except.ok true =>
          match platform.release_date with
          | none => Except.error (PyErr.keyErrorStr ("release_date"))
          | some rd =>
              match pyParseInt ((pySplitOn '-' rd).headD rd) with
              | none => Except.error PyErr.valueError
              | some year =>
                  match platform.original_price with
                  | none => Except.error (PyErr.keyErrorStr ("original_price"))
                  | some price =>
                      match get_adjusted_price cpi price year none with
                      | Except.error e => Except.error e
                      | Except.ok adjusted_price =>
                          match limit with
                          | some lim =>
                              if counter + 1 ≥ lim then
                                Except.ok (platforms ++ [⟨platform, year, adjusted_price⟩])
                              else
                                main_loop cpi limit rest (counter + 1)
                                  (platforms ++ [⟨platform, year, adjusted_price⟩])
                          | none =>
                              main_loop cpi limit rest (counter + 1)
                                (platforms ++ [⟨platform, year, adjusted_price⟩])

/-! Concrete states used by the theorems below.  Those of the nonempty
series are exactly what the ingestion described by the spec (skip the
header, average the values of each year, track the bounds) produces on
the matching inputs; the broken loop of the source never builds them. -/

/-- A one-year series entirely after the 2013 cutoff. -/
def cpi2014 : CPIData :=
  { year_cpi := [(2014, 100)], first_year := some 2014, last_year := some 2014 }

/-- A one-year series at 2000, with no entry for the 2013 cutoff. -/
def cpi2000 : CPIData :=
  { year_cpi := [(2000, 100)], first_year := some 2000, last_year := some 2000 }

/-- A two-year series over 2000 and 2001. -/
def cpi0001 : CPIData :=
  { year_cpi := [(2000, 100), (2001, 120)],
    first_year := some 2000, last_year := some 2001 }

/-- A series holding both the year 2000 and the 2013 cutoff year. -/
def cpiMain : CPIData :=
  { year_cpi := [(2000, 100), (2013, 200)],
    first_year := some 2000, last_year := some 2013 }

/-- A complete, valid platform record. -/
def fooPlatform : Platform :=
  { name := some ("Foo".toList), abbreviation := some ("F".toList),
    release_date := some ("2000-01-01".toList), original_price := some 50 }

/-- Claim C1: the claim states that load_from_file skips every line before
the first header-marker line (one starting with "DATE ") and fails with
FormatError when no marker occurs before the input ends.  The code does
neither: its inner loop, while not line.startswith("DATE "): pass, has a
body that never changes line, so on the very first line lacking the marker
prefix ingestion stops terminating instead of skipping the line or raising.
This theorem evaluates the embedded code on a one-line input with no marker
line: the outcome is divergence, not an error. -/
theorem claim_C1_no_marker_diverges :
    load_from_file initCPI ["some random preamble".toList] =
      LoadResult.diverge initCPI := by
  decide

/-- Claim C2: on the spec example input, the claim says ingestion succeeds
with cpi[2000] = 100 and cpi[2001] = 120.  The embedded code instead raises
ValueError on the very first line: "DATE VALUE" starts with "DATE ", so the
busy-wait loop exits at once and the header line itself reaches the parser,
where int("DATE") fails; the series is left empty. -/
theorem claim_C2_example_input_raises :
    load_from_file initCPI
        ["DATE VALUE".toList, "2000-01-01 90.0".toList,
         "2000-06-01 110.0".toList, "2001-01-01 120.0".toList] =
      LoadResult.err PyErr.valueError initCPI := by
  decide

/-- Claim C3: the claim says that after load_from_file completes on a
chronologically grouped input, cpi[y] is the mean of the values of each
year y.  load_from_file never completes on any input containing a data
line: this theorem evaluates the embedded code on a grouped two-line input
for the year 2000 (claimed mean 100); the loop diverges on the first data
line, so no mean is ever stored. -/
theorem claim_C3_grouped_input_diverges :
    load_from_file initCPI
        ["2000-01-01 90.0".toList, "2000-06-01 110.0".toList] =
      LoadResult.diverge initCPI := by
  decide

/-- Claim C5: the claim says a malformed CPI data line (non-numeric value)
makes ingestion fail with ParseError, leaving the mapping and bounds
untouched.  On a data line with the non-numeric value "abc" the embedded
code instead diverges in the busy-wait loop (the line lacks the "DATE "
prefix) and never raises any parse error. -/
theorem claim_C5_malformed_line_diverges :
    load_from_file initCPI ["2000-01-01 abc".toList] =
      LoadResult.diverge initCPI := by
  decide

/-- Claim C6: the claim says is_valid_dataset never raises and rejects any
record missing a required field, including a record missing both a
required field and the name used in the diagnostic.  On the record with no
fields at all, the release-date diagnostic interpolates platform["name"],
which raises KeyError("name") instead of returning False. -/
theorem claim_C6_filter_raises :
    is_valid_dataset
        { name := none, abbreviation := none, release_date := none,
          original_price := none } =
      Except.error (PyErr.keyErrorStr ("name")) := by
  decide

/-- Reduction of the target-year clamp on an absent target. -/
theorem clampCurrentYear_none : clampCurrentYear none = 2013 := rfl

/-- Reduction of the target-year clamp on an explicit target. -/
theorem clampCurrentYear_some (t : Int) :
    clampCurrentYear (some t) = if t > 2013 then 2013 else t := rfl

/-- Reduction of the source-year clamp once both bounds are set. -/
theorem clampSourceYear_some (f l : Int) (s : CPIData) (year : Int)
    (hf : s.first_year = some f) (hl : s.last_year = some l) :
    clampSourceYear s year =
      if year < f then some f else if year > l then some l else some year := by
  unfold clampSourceYear
  rw [hf, hl]

/-- get_adjusted_price depends on its source-year argument only through
the clamp. -/
theorem get_adjusted_price_clamp_eq (s : CPIData) (p : ℚ) (y1 y2 : Int)
    (t : Option Int) (h : clampSourceYear s y1 = clampSourceYear s y2) :
    get_adjusted_price s p y1 t = get_adjusted_price s p y2 t := by
  unfold get_adjusted_price
  rw [h]

/-- Claim C4, counterexample: the claim asserts the identity
get_adjusted_price(p, y, y) = p for every in-range y with nonzero cpi[y].
In the series holding only the year 2014 (bounds 2014..2014, cpi[2014] =
100, nonzero), the in-range query with price 7, source year 2014 and
explicit target year 2014 does not return 7: the target year is capped to
2013 and the unconditional lookup of 2013 raises KeyError. -/
theorem claim_C4_counterexample :
    get_adjusted_price cpi2014 7 2014 (some 2014) ≠ Except.ok 7 := by
  decide

/-- Claim C4 (amended): for every series state with both bounds set, every
price p and every source year y within the bounds with y at most the 2013
cutoff and a nonzero stored cpi[y], the query with explicit target year y
returns exactly p. -/
theorem claim_C4_identity (s : CPIData) (p : ℚ) (y f l : Int) (c : ℚ)
    (hf : s.first_year = some f) (hl : s.last_year = some l)
    (h1 : f ≤ y) (h2 : y ≤ l) (h3 : y ≤ 2013)
    (hc : lookupYearCpi s y = some c) (hc0 : c ≠ 0) :
    get_adjusted_price s p y (some y) = Except.ok p := by
  have hcl : clampSourceYear s y = some y := by
    rw [clampSourceYear_some f l s y hf hl, if_neg (by omega), if_neg (by omega)]
  have hcur : clampCurrentYear (some y) = y := by
    rw [clampCurrentYear_some y, if_neg (by omega)]
  simp only [get_adjusted_price, hcl, hcur, hc, hc0, if_false]
  rw [div_mul_cancel₀ p hc0]

/-- Claim C4 witness: in the series holding only the year 2000 with
cpi[2000] = 100, the query with price 7 and source and target year 2000
returns exactly 7. -/
theorem claim_C4_identity_witness :
    get_adjusted_price cpi2000 7 2000 (some 2000) = Except.ok 7 :=
  claim_C4_identity cpi2000 7 2000 2000 2000 100 rfl rfl (by omega) (by omega)
    (by omega) rfl (by norm_num)

/-- Claim C7, counterexample: the claim asserts that a query against the
empty series fails with LookupError through an emptiness check performed
before any clamping.  The code has no such check: the clamping runs first
(the target year defaults to 2013 and the source year is replaced by the
None bound, since Python 2 orders any int above None) and the failure is
the year_cpi lookup of the clamped None key, a KeyError carrying that key;
it is not the bare LookupError a pre-clamp emptiness check would raise. -/
theorem claim_C7_counterexample :
    get_adjusted_price initCPI 100 2000 none =
        Except.error (PyErr.keyError none) ∧
      (Except.error (PyErr.keyError none) : Except PyErr ℚ) ≠
        Except.error PyErr.lookupError :=
  ⟨rfl, by decide⟩

/-- Claim C7 (amended): every get_adjusted_price query against the freshly
initialised (empty) series fails with KeyError on the None key — a
LookupError subclass — raised by the year_cpi lookup after clamping, since
the clamp of the source year against the None bounds yields None itself. -/
theorem claim_C7_empty_series (p : ℚ) (y : Int) (cy : Option Int) :
    get_adjusted_price initCPI p y cy = Except.error (PyErr.keyError none) := by
  cases cy <;> rfl

/-- Claim C8: for a series state with both bounds set and first_year at
most last_year (as ingestion of chronologically ordered data yields),
querying with a source year below first_year gives exactly the result of
querying with first_year, and above last_year exactly that of last_year,
for every price and every target year. -/
theorem claim_C8_boundary_clamp (s : CPIData) (f l : Int) (p : ℚ) (y : Int)
    (t : Option Int) (hf : s.first_year = some f) (hl : s.last_year = some l)
    (hfl : f ≤ l) :
    (y < f → get_adjusted_price s p y t = get_adjusted_price s p f t) ∧
    (l < y → get_adjusted_price s p y t = get_adjusted_price s p l t) := by
  have hy := clampSourceYear_some f l s y hf hl
  have hff := clampSourceYear_some f l s f hf hl
  have hll := clampSourceYear_some f l s l hf hl
  constructor
  · intro hlt
    have e1 : clampSourceYear s y = some f := by rw [hy, if_pos hlt]
    have e2 : clampSourceYear s f = some f := by
      rw [hff, if_neg (by omega), if_neg (by omega)]
    exact get_adjusted_price_clamp_eq s p y f t (e1.trans e2.symm)
  · intro hgt
    have e1 : clampSourceYear s y = some l := by
      rw [hy, if_neg (by omega), if_pos (by omega)]
    have e2 : clampSourceYear s l = some l := by
      rw [hll, if_neg (by omega), if_neg (by omega)]
    exact get_adjusted_price_clamp_eq s p y l t (e1.trans e2.symm)

/-- Claim C8 witness: in the 2000..2001 series, querying with the source
year 1990 (below range) gives the same result as querying with 2000. -/
theorem claim_C8_boundary_clamp_witness :
    get_adjusted_price cpi0001 7 1990 (some 2001) =
      get_adjusted_price cpi0001 7 2000 (some 2001) :=
  (claim_C8_boundary_clamp cpi0001 2000 2001 7 1990 (some 2001) rfl rfl
    (by omega)).1 (by omega)

/-- Claim C10: for every series state with both bounds set and no entry
for the 2013 cutoff year, every query whose target year is unspecified or
above 2013 fails with a KeyError (a lookup error), for every price and
every source year — the capped target year 2013 is looked up in the series
unconditionally, and when the clamped source year itself has no entry the
earlier lookup already raises. -/
theorem claim_C10_missing_cutoff (s : CPIData) (f l : Int) (p : ℚ) (y : Int)
    (cy : Option Int) (hf : s.first_year = some f) (hl : s.last_year = some l)
    (h2013 : lookupYearCpi s 2013 = none)
    (hcy : cy = none ∨ ∃ t, cy = some t ∧ t > 2013) :
    ∃ k : Int, get_adjusted_price s p y cy =
      Except.error (PyErr.keyError (some k)) := by
  have hcur : clampCurrentYear cy = 2013 := by
    rcases hcy with h | ⟨t, ht, hgt⟩
    · rw [h, clampCurrentYear_none]
    · rw [ht, clampCurrentYear_some t, if_pos hgt]
  obtain ⟨ys, hys⟩ : ∃ ys, clampSourceYear s y = some ys := by
    rw [clampSourceYear_some f l s y hf hl]
    by_cases hc1 : y < f
    · exact ⟨f, by rw [if_pos hc1]⟩
    · by_cases hc2 : y > l
      · exact ⟨l, by rw [if_neg hc1, if_pos hc2]⟩
      · exact ⟨y, by rw [if_neg hc1, if_neg hc2]⟩
  cases hlook : lookupYearCpi s ys with
  | none =>
      exact ⟨ys, by simp only [get_adjusted_price, hys, hlook]⟩
  | some yc =>
      exact ⟨2013, by simp only [get_adjusted_price, hys, hlook, hcur, h2013]⟩

/-- Claim C10 witness: in the series holding only the year 2000, the query
with price 5, source year 2000 and no target year fails with a KeyError. -/
theorem claim_C10_missing_cutoff_witness :
    ∃ k : Int, get_adjusted_price cpi2000 5 2000 none =
      Except.error (PyErr.keyError (some k)) :=
  claim_C10_missing_cutoff cpi2000 2000 2000 5 2000 none rfl rfl rfl
    (Or.inl rfl)

/-- Claim C9, counterexample: with limit 0 the claim says no record is
processed, yet on a single valid record the loop validates it, enriches it
and appends it before the limit test counter + 1 >= limit runs, so the
output holds one record. -/
theorem claim_C9_counterexample :
    ¬ ∀ platforms : List EnrichedPlatform,
        main_loop cpiMain (some 0) [fooPlatform] 0 [] = Except.ok platforms →
          (platforms.length : Int) ≤ 0 := by
  intro h
  have h1 := h [⟨fooPlatform, 2000, (50 : ℚ) / 100 * 200⟩] rfl
  norm_num at h1

/-- Invariant of the processing loop: once the counter is below the limit,
a normal completion returns a list no longer than the accumulator plus the
records the limit still allows. -/
theorem main_loop_length_bound (cpi : CPIData) (lim : Int) :
    ∀ (records : List Platform) (counter : Int)
      (acc platforms : List EnrichedPlatform),
      counter < lim →
      main_loop cpi (some lim) records counter acc = Except.ok platforms →
      (platforms.length : Int) ≤ (acc.length : Int) + (lim - counter) := by
  intro records
  induction records with
  | nil =>
      intro counter acc platforms hc h
      simp only [main_loop, Except.ok.injEq] at h
      subst h
      omega
  | cons q rest ih =>
      intro counter acc platforms hc h
      simp only [main_loop] at h
      split at h
      · exact absurd h (by simp)
      · exact le_trans (ih counter acc platforms hc h) (by omega)
      · split at h
        · exact absurd h (by simp)
        · split at h
          · exact absurd h (by simp)
          · split at h
            · exact absurd h (by simp)
            · split at h
              · exact absurd h (by simp)
              · split at h
                · simp only [Except.ok.injEq] at h
                  subst h
                  simp only [List.length_append, List.length_cons,
                    List.length_nil]
                  push_cast
                  omega
                · have hb := ih (counter + 1)
                    (acc ++ [⟨q, _, _⟩]) platforms (by omega) h
                  simp only [List.length_append, List.length_cons,
                    List.length_nil] at hb
                  push_cast at hb ⊢
                  omega

/-- Claim C9 (amended): for every limit of at least 1, the loop appends at
most limit records; with limit 0 (or negative) the first valid record is
still processed, because the limit test counter + 1 >= limit runs only
after a record has been appended. -/
theorem claim_C9_limit (cpi : CPIData) (records : List Platform) (lim : Int)
    (platforms : List EnrichedPlatform) (hl : 1 ≤ lim)
    (h : main_loop cpi (some lim) records 0 [] = Except.ok platforms) :
    (platforms.length : Int) ≤ lim := by
  have hb := main_loop_length_bound cpi lim records 0 [] platforms (by omega) h
  simpa using hb

/-- Claim C9 witness: with limit 1 and one valid record, the output list
has length 1, within the limit. -/
theorem claim_C9_limit_witness :
    ((([⟨fooPlatform, 2000, (50 : ℚ) / 100 * 200⟩] :
        List EnrichedPlatform).length : Int)) ≤ 1 :=
  claim_C9_limit cpiMain [fooPlatform] 1
    [⟨fooPlatform, 2000, (50 : ℚ) / 100 * 200⟩] (by omega) rfl
